import Mathlib

/-!
Verification of the local-inference orchestration layer of the Noschen
note-taking application, as implemented in `src/main/llm/localLLM.ts` and the
`ai:analyze` handler of `src/main/main.ts`.

The TypeScript module-level mutable variables (`model`, `isInitialized`,
`isInitializing`, `initError`, `lastInitAttempt`) become an explicit state
record; async functions become pure functions of that state plus an
environment record carrying the outcomes of the external effects (file
checks, model loads, inference calls, network requests).  Wall-clock reads
(`Date.now()`) become `Nat` arguments fed by a monotone clock.
-/

namespace Noschen

/-! ## localLLM.ts: data and configuration -/

/-- Result shape of `initializeLocalLLM`: `{ success: boolean; error?: string }`. -/
structure InitResult where
  success : Bool
  error : Option String
deriving Repr, DecidableEq

/-- Result shape of `checkLocalLLMAvailable`: `{ available: boolean; error?: string }`. -/
structure Availability where
  available : Bool
  error : Option String
deriving Repr, DecidableEq

/-- `const INIT_RETRY_DELAY = 5000` (ms between retry attempts). -/
def INIT_RETRY_DELAY : Nat := 5000

/-- `getOptimalGpuLayers()`: 33 layers on Apple Silicon (Metal), 0 (CPU) otherwise.
The `process.platform === 'darwin' && os.arch() === 'arm64'` probe is a host
fact, passed in as the Boolean `appleSilicon`. -/
def getOptimalGpuLayers (appleSilicon : Bool) : Nat :=
  if appleSilicon then 33 else 0

/-- Error message returned by `checkLocalLLMAvailable` for an implausibly small file. -/
def corruptedMsg : String :=
  "Model file appears corrupted (too small). Re-download with: npm run download-model"

/-- Error message returned by `checkLocalLLMAvailable` for a missing file. -/
def notFoundMsg (modelPath : String) : String :=
  "Model file not found: " ++ modelPath ++ ". Run: npm run download-model"

/-- `checkLocalLLMAvailable()`.  The filesystem facts (existence and byte size of
the file at `getModelPath()`) are inputs.  The source computes
`sizeMB = stats.size / (1024 * 1024)` in IEEE doubles and tests `sizeMB < 100`;
division by the constant 2^20 is exact for any file size below 2^53 bytes, so
the test is equivalent to `sizeBytes < 100 * 1024 * 1024`. -/
def checkLocalLLMAvailable (modelPath : String) (fileExists : Bool) (sizeBytes : Nat) :
    Availability :=
  if ¬ fileExists then
    ⟨false, some (notFoundMsg modelPath)⟩
  else if sizeBytes < 100 * 1024 * 1024 then
    ⟨false, some corruptedMsg⟩
  else
    ⟨true, none⟩

/-! ## localLLM.ts: lifecycle state machine -/

/-- The module-level mutable state of `localLLM.ts`.  `model : Bool` records
whether the `model` variable holds a loaded model (non-null).  The cached
`llamaModule` / `llama` runtime references are omitted: they are loaded at most
once inside a load attempt and are never read by any observable operation
modelled here. -/
structure LLMState where
  model : Bool
  isInitialized : Bool
  isInitializing : Bool
  initError : Option String
  lastInitAttempt : Nat
deriving Repr, DecidableEq

/-- The state at module load: all flags down, no error, `lastInitAttempt = 0`. -/
def initialLLMState : LLMState :=
  { model := false, isInitialized := false, isInitializing := false,
    initError := none, lastInitAttempt := 0 }

/-- Outcome of the body of `initializeLocalLLM`'s `try` block (availability
check, dynamic import, `getLlama()`, `llama.loadModel`): either every awaited
step succeeded, or some step threw with the given message. -/
inductive LoadOutcome
  | ok
  | fail (msg : String)
deriving Repr, DecidableEq

/-- What the guard section of `initializeLocalLLM` (the code before
`isInitializing = true`) decides: return immediately, or proceed to a load. -/
inductive InitEnter
  | immediate (r : InitResult)
  | proceed
deriving Repr, DecidableEq

/-- Message returned to a caller that observes `isInitializing` already set. -/
def inProgressMsg : String := "Initialization already in progress"

/-- The guard section of `initializeLocalLLM`, run synchronously at call entry:

    if (isInitializing) return { success: false, error: '...' };
    if (initError && Date.now() - lastInitAttempt < INIT_RETRY_DELAY)
      return { success: false, error: initError };
    if (isInitialized && model) return { success: true };
    isInitializing = true; lastInitAttempt = Date.now();

`now` is the value of `Date.now()`. -/
def initEnter (st : LLMState) (now : Nat) : InitEnter × LLMState :=
  if st.isInitializing then
    (.immediate ⟨false, some inProgressMsg⟩, st)
  else if st.initError.isSome ∧ now - st.lastInitAttempt < INIT_RETRY_DELAY then
    (.immediate ⟨false, st.initError⟩, st)
  else if st.isInitialized ∧ st.model then
    (.immediate ⟨true, none⟩, st)
  else
    (.proceed, { st with isInitializing := true, lastInitAttempt := now })

/-- `disposeLocalLLM()`: a failing `model.dispose()` is caught and logged
(`disposeThrew` is the swallowed outcome), then `model = null` and
`isInitialized = false` unconditionally. -/
def disposeLocalLLM (st : LLMState) (_disposeThrew : Bool) : LLMState :=
  { st with model := false, isInitialized := false }

/-- The `try`/`catch`/`finally` tail of `initializeLocalLLM`, entered only when
the guards said `proceed`.  On success: `model` set, `isInitialized = true`,
`initError = null`.  On failure: `initError` cached, `isInitialized = false`,
partial state cleaned up via `disposeLocalLLM`.  Either way the `finally`
clears `isInitializing`. -/
def initFinish (st : LLMState) (load : LoadOutcome) (disposeThrew : Bool) :
    InitResult × LLMState :=
  match load with
  | .ok =>
      (⟨true, none⟩,
        { st with model := true, isInitialized := true, initError := none,
                  isInitializing := false })
  | .fail msg =>
      let st1 := { st with initError := some msg, isInitialized := false }
      let st2 := disposeLocalLLM st1 disposeThrew
      (⟨false, some msg⟩, { st2 with isInitializing := false })

/-- A whole `initializeLocalLLM` call executed without interleaving: guards,
then (when they pass) the load attempt.  The third component records whether a
load attempt was made in this call. -/
def initializeLocalLLM (st : LLMState) (now : Nat) (load : LoadOutcome)
    (disposeThrew : Bool) : InitResult × LLMState × Bool :=
  match initEnter st now with
  | (.immediate r, st') => (r, st', false)
  | (.proceed, st') =>
      let fin := initFinish st' load disposeThrew
      (fin.1, fin.2, true)

/-- The `gpuAcceleration` part of `getLocalLLMStatus()`. -/
structure GpuAcceleration where
  enabled : Bool
  type : String
  layers : Nat
deriving Repr, DecidableEq

/-- Return shape of `getLocalLLMStatus()`. -/
structure LLMStatus where
  initialized : Bool
  initializing : Bool
  error : Option String
  gpuAcceleration : GpuAcceleration
deriving Repr, DecidableEq

/-- `getLocalLLMStatus()`: a pure read of the module state plus the static GPU
configuration. -/
def getLocalLLMStatus (appleSilicon : Bool) (st : LLMState) : LLMStatus :=
  let layers := getOptimalGpuLayers appleSilicon
  let gpuEnabled := layers > 0
  { initialized := st.isInitialized
    initializing := st.isInitializing
    error := st.initError
    gpuAcceleration :=
      { enabled := gpuEnabled
        type := if appleSilicon then "Metal (Apple Silicon)"
                else if gpuEnabled then "GPU" else "CPU"
        layers := layers } }

/-! ## localLLM.ts: per-request generation (`generateLocalResponse`) -/

/-- Outcomes of the awaited steps inside `generateLocalResponse`'s `try` block.
Each step either returns normally or throws with a message. -/
structure GenOutcome where
  createContext : Except String Unit
  getSequence : Except String Unit
  newSession : Except String Unit
  promptResult : Except String String
deriving Repr

/-- Return shape of `generateLocalResponse`: `{ response?: string; error?: string }`. -/
structure GenResult where
  response : Option String
  error : Option String
deriving Repr, DecidableEq

/-- Counting instrumentation for the resource-lifecycle claims: how many
inference contexts and chat sessions the call created and how many it
disposed before returning. -/
structure GenTrace where
  contextsCreated : Nat
  contextsDisposed : Nat
  sessionsCreated : Nat
  sessionsDisposed : Nat
deriving Repr, DecidableEq

/-- The `try`/`catch` body of `generateLocalResponse` after initialization was
ensured: result of the body plus which of the two local variables
(`localContext`, `session`) ended up non-null.  A step that throws leaves the
variables assigned so far for the `finally` block. -/
def genTryBody (o : GenOutcome) : GenResult × Bool × Bool :=
  match o.createContext with
  | .error msg => (⟨none, some msg⟩, false, false)
  | .ok _ =>
    match o.getSequence with
    | .error msg => (⟨none, some msg⟩, true, false)
    | .ok _ =>
      match o.newSession with
      | .error msg => (⟨none, some msg⟩, true, false)
      | .ok _ =>
        match o.promptResult with
        | .error msg => (⟨none, some msg⟩, true, true)
        | .ok resp => (⟨some resp, none⟩, true, true)

/-- `generateLocalResponse(systemPrompt, userPrompt, config)`.  If the module
state is not ready (`!isInitialized || !model`) it first runs
`initializeLocalLLM`, whose outcome is `initRes`; on init failure it returns
`{ error }` before creating anything.  Otherwise the `try` body runs, and the
`finally` block disposes `session` and `localContext` when non-null, each
dispose wrapped in its own swallowed `try`/`catch` (`sesDisposeThrew`,
`ctxDisposeThrew`). -/
def generateLocalResponse (st : LLMState) (initRes : InitResult) (o : GenOutcome)
    (_sesDisposeThrew _ctxDisposeThrew : Bool) : GenResult × GenTrace :=
  if (¬ st.isInitialized ∨ ¬ st.model) ∧ ¬ initRes.success then
    (⟨none, initRes.error⟩, ⟨0, 0, 0, 0⟩)
  else
    let body := genTryBody o
    let ctxCreated := body.2.1
    let sesCreated := body.2.2
    (body.1,
      { contextsCreated := if ctxCreated then 1 else 0
        contextsDisposed := if ctxCreated then 1 else 0
        sessionsCreated := if sesCreated then 1 else 0
        sessionsDisposed := if sesCreated then 1 else 0 })

/-! ## localLLM.ts: token utilities -/

/-- `estimateTokens(text)`: `Math.ceil(text.length / 4)`. -/
def estimateTokens (text : String) : Nat :=
  (text.length + 3) / 4

/-- `truncateToTokenBudget(text, maxTokens)`.  The source computes
`Math.floor(text.length * (maxTokens / estimatedTokens) * 0.9)` in doubles;
modelled as the exact rational `text.length * maxTokens * 9 / (est * 10)`
floored (JS string indices are by UTF-16 code unit, modelled by character). -/
def truncateToTokenBudget (text : String) (maxTokens : Nat) : String :=
  let estimatedTokens := estimateTokens text
  if estimatedTokens ≤ maxTokens then
    text
  else
    let targetLength := text.length * maxTokens * 9 / (estimatedTokens * 10)
    String.mk (text.data.take targetLength) ++ "..."

/-! ## main.ts: feedback items and `ensureSuggestions` -/

/-- One element of the parsed model output's `feedback` array:
`{ type: string; text: string; suggestion?: string }`. -/
structure FBItem where
  type : String
  text : String
  suggestion : Option String
deriving Repr, DecidableEq

/-- `suggestionTemplates.mece`. -/
def meceTemplate (text : String) : String :=
  "## Additional Category\n\n" ++ text ++
    "\n\nConsider exploring this aspect in more detail."

/-- `suggestionTemplates.gap`. -/
def gapTemplate (text : String) : String :=
  text ++
    "\n\nThis perspective could strengthen the analysis by providing a more comprehensive view of the topic."

/-- `suggestionTemplates.source`. -/
def sourceTemplate (text : String) : String :=
  "### Recommended Sources\n\n" ++ text ++
    "\n\n- Consider searching Google Scholar for related academic papers\n- Look for recent review articles in this domain"

/-- `suggestionTemplates.structure`. -/
def structureTemplate (text : String) : String :=
  "## Suggested Section\n\n" ++ text ++
    "\n\n### Subsection A\n\n### Subsection B"

/-- `suggestionTemplates[item.type] || suggestionTemplates.gap`: lookup in the
template record, defaulting to the `gap` template for unknown types. -/
def suggestionTemplate (ty text : String) : String :=
  if ty = "mece" then meceTemplate text
  else if ty = "gap" then gapTemplate text
  else if ty = "source" then sourceTemplate text
  else if ty = "structure" then structureTemplate text
  else gapTemplate text

/-- JS `String.prototype.trim`: strip leading and trailing whitespace. -/
def jsTrim (s : String) : String :=
  String.mk (((s.data.dropWhile Char.isWhitespace).reverse.dropWhile
    Char.isWhitespace).reverse)

/-- The test `!item.suggestion || item.suggestion.trim() === ''`.  A missing
suggestion and the empty string (falsy in JS) are both blank; `trim` also
catches whitespace-only strings. -/
def isBlankSuggestion : Option String → Bool
  | none => true
  | some s => jsTrim s = ""

/-- The body of the `response.feedback.map((item) => ...)` callback in
`ensureSuggestions`. -/
def ensureItem (item : FBItem) : FBItem :=
  if isBlankSuggestion item.suggestion then
    { item with suggestion := some (suggestionTemplate item.type item.text) }
  else
    item

/-- Return shape of the `ai:analyze` handler: `{ feedback, error? }`. -/
structure AIResponse where
  feedback : List FBItem
  error : Option String
deriving Repr, DecidableEq

/-- `ensureSuggestions(response)`.  The input is the parsed JSON object's
optional `feedback` array; `none` covers both a missing `feedback` field and a
non-array value (`!response.feedback || !Array.isArray(response.feedback)`),
which yield `{ feedback: [] }`. -/
def ensureSuggestions (parsed : Option (List FBItem)) : AIResponse :=
  match parsed with
  | none => ⟨[], none⟩
  | some items => ⟨items.map ensureItem, none⟩

/-! ## main.ts: prompts and content preparation -/

/-- The `context` argument of `ai:analyze`: `{ h1, h2, allH2s }`. -/
structure AIContext where
  h1 : String
  h2 : String
  allH2s : List String
deriving Repr, DecidableEq

/-- `PROMPTS.small.system(ctx)` (template literal; `{`/`}` appear inside the
JSON example). -/
def promptsSmallSystem (ctx : AIContext) : String :=
  "You analyze research notes and give JSON feedback.\nTopic: \"" ++ ctx.h1 ++
    "\"\nSection: \"" ++ ctx.h2 ++ "\"\nOther sections: " ++
    String.intercalate ", " (ctx.allH2s.take 5) ++
    "\n\nOutput JSON only:\n\x7b\"feedback\":[\x7b\"type\":\"gap|mece|source\",\"text\":\"issue\",\"suggestion\":\"2-3 sentences to add\"\x7d]\x7d"

/-- `PROMPTS.large.system(ctx)`. -/
def promptsLargeSystem (ctx : AIContext) : String :=
  "You are a research assistant analyzing academic notes. Provide feedback with CONCRETE, INSERTABLE CONTENT.\n\nResearch topic: \"" ++
    ctx.h1 ++ "\"\nCurrent section: \"" ++ ctx.h2 ++ "\"\nExisting sections: " ++
    String.intercalate ", " ctx.allH2s ++
    "\n\nAnalyze the content and provide feedback. Every feedback item MUST include a \"suggestion\" field with actual insertable text.\n\nCategories: MECE (missing categories), GAP (missing perspectives), SOURCE (literature), STRUCTURE (organization)\n\nJSON FORMAT:\n\x7b\"feedback\":[\x7b\"type\":\"gap\",\"text\":\"Brief description\",\"suggestion\":\"2-5 sentences of actual content to insert.\"\x7d]\x7d"

/-- `PROMPTS.small.maxContentTokens`. -/
def smallMaxContentTokens : Nat := 800

/-- `PROMPTS.large.maxContentTokens`. -/
def largeMaxContentTokens : Nat := 2000

/-- Whether the split regex `/(?=##\s+[^#])|(?=<h2[^>]*>)/gi` has a zero-width
match at position `i` through its first alternative `(?=##\s+[^#])`:
two `#`, at least one whitespace character, then a character other than `#`
(with backtracking, this holds exactly when position `i+2` is whitespace and
position `i+3` exists and is not `#`). -/
def h2HashAt (cs : List Char) (i : Nat) : Bool :=
  (cs.get? i == some '#') && (cs.get? (i+1) == some '#') &&
  (match cs.get? (i+2) with | some c => c.isWhitespace | none => false) &&
  (match cs.get? (i+3) with | some c => c != '#' | none => false)

/-- The second alternative `(?=<h2[^>]*>)` (case-insensitive `h`): `<h2`
followed, after any run of non-`>` characters, by a `>`. -/
def h2TagAt (cs : List Char) (i : Nat) : Bool :=
  (cs.get? i == some '<') &&
  (match cs.get? (i+1) with | some c => c.toLower == 'h' | none => false) &&
  (cs.get? (i+2) == some '2') &&
  (cs.drop (i+3)).contains '>'

/-- The positions at which `String.split` with the zero-width pattern splits:
every match position except 0 (JS `split` ignores an empty match at the start). -/
def sectionSplits (cs : List Char) : List Nat :=
  (List.range cs.length).filter (fun i => i != 0 && (h2HashAt cs i || h2TagAt cs i))

/-- The pieces of `content.split(h2Pattern)`: the substrings between
consecutive split positions (with the implicit boundaries 0 and `cs.length`). -/
def sectionsOf (cs : List Char) : List (List Char) :=
  let ps := sectionSplits cs
  ((0 :: ps).zip (ps ++ [cs.length])).map (fun p => ((cs.drop p.1).take (p.2 - p.1)))

/-- JS `String.prototype.includes`, on character lists. -/
def containsSub (s pat : List Char) : Bool :=
  (List.range (s.length + 1)).any (fun i => pat.isPrefixOf (s.drop i))

/-- `extractCurrentSection(content, currentH2)`: returns the first split
section whose lowercase form contains the lowercase `currentH2`, else the last
2000 characters (`content.slice(-2000)`); an empty (falsy) `currentH2` returns
the content unchanged.  (`toLowerCase` is modelled by `Char.toLower`.) -/
def extractCurrentSection (content currentH2 : String) : String :=
  if currentH2 = "" then content
  else
    let target := currentH2.data.map Char.toLower
    match (sectionsOf content.data).find? (fun s => containsSub (s.map Char.toLower) target) with
    | some s => String.mk s
    | none => String.mk (content.data.drop (content.data.length - 2000))

/-! ## main.ts: the `ai:analyze` handler -/

/-- The provider field of the settings object: `'builtin' | 'ollama' | 'mistral'`. -/
inductive Provider
  | builtin
  | ollama
  | mistral
deriving Repr, DecidableEq

/-- The slice of `AISettings` that `ai:analyze` reads. -/
structure AISettings where
  provider : Provider
  mistralApiKey : String
deriving Repr, DecidableEq

/-- `const RESPONSE_TIME_THRESHOLD = 2000` (ms). -/
def RESPONSE_TIME_THRESHOLD : Nat := 2000

/-- The module-level adaptive-chunking state of `main.ts`:
`let useAdaptiveChunking = false; let lastResponseTime = 0`. -/
structure ChunkState where
  useAdaptiveChunking : Bool
  lastResponseTime : Nat
deriving Repr, DecidableEq

/-- The initial chunking state at module load. -/
def initialChunkState : ChunkState := ⟨false, 0⟩

/-- Outcome of the `fetch` in the `ollama` / `mistral` branches: `throw`
covers a thrown fetch or a non-ok response (both reach the handler's outer
`catch`); `ok parsed` carries the optional parsed `feedback` array, where
`none` covers a `JSON.parse` throw or a body without a valid feedback array
(both yield `{ feedback: [] }`, exactly `ensureSuggestions none`). -/
inductive NetOutcome
  | throw
  | ok (parsed : Option (List FBItem))
deriving Repr, DecidableEq

/-- Outcome of the `fetch`/parse inside `callMistralAPI`: `fail` covers a
thrown fetch, a non-ok response, or a parse error (all caught by its own
`catch`); `ok parsed` as in `NetOutcome`. -/
inductive MistralOutcome
  | fail
  | ok (parsed : Option (List FBItem))
deriving Repr, DecidableEq

/-- Error attached by `callMistralAPI`'s `catch` block. -/
def mistralFallbackFailedMsg : String := "Mistral API fallback failed"

/-- `callMistralAPI(apiKey, systemPrompt, userPrompt)` as a function of its
network outcome. -/
def callMistralAPI (o : MistralOutcome) : AIResponse :=
  match o with
  | .fail => ⟨[], some mistralFallbackFailedMsg⟩
  | .ok parsed => ensureSuggestions parsed

/-- Error returned by the handler's outer `catch`. -/
def analyzeFailedMsg : String := "AI analysis failed. Check your settings."

/-- Environment of one `ai:analyze` call: outcomes of every awaited external
effect.  `availability` and `initResult` feed the builtin branch's guards;
`genResult` is `generateLocalResponse`'s outcome (`ok response` or
`error message`); `elapsedMs` is `Date.now() - startTime` around that call;
`parsed` is the optional feedback array extracted from a successful builtin
response (`none` covers no JSON match, a parse error, or a missing feedback
array — all of which produce `{ feedback: [] }`); `net` serves whichever of
the `ollama` / `mistral` branches runs; `fallback` is `callMistralAPI`'s
outcome. -/
structure AnalyzeEnv where
  availability : Availability
  initResult : InitResult
  genResult : Except String String
  elapsedMs : Nat
  parsed : Option (List FBItem)
  net : NetOutcome
  fallback : MistralOutcome
deriving Repr

/-- Record of one `callMistralAPI(...)` invocation: the arguments it received. -/
structure FallbackCall where
  apiKey : String
  systemPrompt : String
  userPrompt : String
deriving Repr, DecidableEq

/-- Result of one `ai:analyze` call: the returned value, the chunking state
after the call, and traces of the fallback and local-generation invocations
(with the prompt arguments they received). -/
structure AnalyzeOut where
  result : AIResponse
  state : ChunkState
  fallbackCalls : List FallbackCall
  genCalls : List (String × String)
deriving Repr, DecidableEq

/-- The `ai:analyze` handler.  Mirrors `ipcMain.handle('ai:analyze', ...)`:
content preparation (adaptive chunking for the builtin provider), then the
three provider branches.  In the builtin branch the chunking state is
rewritten from the measured latency as soon as `generateLocalResponse`
returns, before the error check (the source's two conditional writes amount
to `useAdaptiveChunking = lastResponseTime > RESPONSE_TIME_THRESHOLD`); on a
generation error with a non-empty (truthy) `mistralApiKey` it calls
`callMistralAPI` with the large system prompt and the full, unchunked
`content`. -/
def analyze (settings : AISettings) (content : String) (ctx : AIContext)
    (st : ChunkState) (env : AnalyzeEnv) : AnalyzeOut :=
  let isSmallModel := settings.provider = Provider.builtin
  let maxContentTokens := if isSmallModel then smallMaxContentTokens else largeMaxContentTokens
  let analysisContent :=
    if isSmallModel ∧ st.useAdaptiveChunking then
      truncateToTokenBudget (extractCurrentSection content ctx.h2) maxContentTokens
    else if isSmallModel then
      truncateToTokenBudget content 1500
    else
      content
  let systemPrompt := if isSmallModel then promptsSmallSystem ctx else promptsLargeSystem ctx
  let userPrompt := "Analyze:\n\n" ++ analysisContent
  match settings.provider with
  | .builtin =>
    if ¬ env.availability.available then
      ⟨⟨[], env.availability.error⟩, st, [], []⟩
    else if ¬ env.initResult.success then
      ⟨⟨[], env.initResult.error⟩, st, [], []⟩
    else
      let st' : ChunkState :=
        ⟨decide (env.elapsedMs > RESPONSE_TIME_THRESHOLD), env.elapsedMs⟩
      match env.genResult with
      | .error e =>
        if settings.mistralApiKey ≠ "" then
          ⟨callMistralAPI env.fallback, st',
            [⟨settings.mistralApiKey, promptsLargeSystem ctx, "Analyze:\n\n" ++ content⟩],
            [(systemPrompt, userPrompt)]⟩
        else
          ⟨⟨[], some e⟩, st', [], [(systemPrompt, userPrompt)]⟩
      | .ok _resp =>
        ⟨ensureSuggestions env.parsed, st', [], [(systemPrompt, userPrompt)]⟩
  | .ollama =>
    match env.net with
    | .throw => ⟨⟨[], some analyzeFailedMsg⟩, st, [], []⟩
    | .ok parsed => ⟨ensureSuggestions parsed, st, [], []⟩
  | .mistral =>
    match env.net with
    | .throw => ⟨⟨[], some analyzeFailedMsg⟩, st, [], []⟩
    | .ok parsed => ⟨ensureSuggestions parsed, st, [], []⟩

/-- The chunking state threaded through a sequence of `ai:analyze` calls. -/
def analyzeFold (settings : AISettings) (content : String) (ctx : AIContext)
    (st : ChunkState) (envs : List AnalyzeEnv) : ChunkState :=
  envs.foldl (fun s e => (analyze settings content ctx s e).state) st

/-! ## Concrete fixtures used by witnesses and counterexamples -/

/-- A settings object with the builtin provider and no cloud key. -/
def sBuiltin : AISettings := ⟨Provider.builtin, ""⟩

/-- A settings object with the builtin provider and a non-empty cloud key. -/
def sBuiltinKey : AISettings := ⟨Provider.builtin, "k"⟩

/-- A settings object with the ollama provider and a non-empty cloud key. -/
def sOllama : AISettings := ⟨Provider.ollama, "k"⟩

/-- A concrete analysis context. -/
def ctx0 : AIContext := ⟨"Topic", "Section", ["Section"]⟩

/-- Builtin request that reaches generation and succeeds in 2500 ms. -/
def env2500 : AnalyzeEnv :=
  { availability := ⟨true, none⟩, initResult := ⟨true, none⟩,
    genResult := .ok "r", elapsedMs := 2500, parsed := none,
    net := .ok none, fallback := .fail }

/-- Builtin request that reaches generation and succeeds in 1000 ms. -/
def env1000 : AnalyzeEnv :=
  { availability := ⟨true, none⟩, initResult := ⟨true, none⟩,
    genResult := .ok "r", elapsedMs := 1000, parsed := none,
    net := .ok none, fallback := .fail }

/-- Builtin request whose generation call fails after 2500 ms. -/
def envGenFail : AnalyzeEnv :=
  { availability := ⟨true, none⟩, initResult := ⟨true, none⟩,
    genResult := .error "gen failed", elapsedMs := 2500, parsed := none,
    net := .ok none, fallback := .fail }

/-- Builtin request whose model load (`initializeLocalLLM`) fails. -/
def envInitFail : AnalyzeEnv :=
  { availability := ⟨true, none⟩, initResult := ⟨false, some "load failed"⟩,
    genResult := .error "unreached", elapsedMs := 0, parsed := none,
    net := .ok none, fallback := .fail }

/-- Network request (ollama / mistral branch) that throws. -/
def envThrow : AnalyzeEnv :=
  { availability := ⟨true, none⟩, initResult := ⟨true, none⟩,
    genResult := .ok "r", elapsedMs := 0, parsed := none,
    net := .throw, fallback := .fail }

/-- A lifecycle state holding a cached failure recorded at time 1000. -/
def backoffSt : LLMState :=
  { model := false, isInitialized := false, isInitializing := false,
    initError := some "load failed", lastInitAttempt := 1000 }

/-! ## Claims about the lifecycle manager -/

/-- C4: a call to `initializeLocalLLM` made (at quiescence, i.e. with no call
in flight) while a cached initialization error exists and less than the
5-second retry delay has elapsed since the last attempt makes no new load
attempt and returns the cached error unchanged as `{success: false, error}`,
leaving the state untouched. -/
theorem backoff_cached (st : LLMState) (now : Nat) (load : LoadOutcome) (d : Bool)
    (e : String) (hni : st.isInitializing = false) (he : st.initError = some e)
    (hw : now - st.lastInitAttempt < INIT_RETRY_DELAY) :
    initializeLocalLLM st now load d = (⟨false, some e⟩, st, false) := by
  unfold initializeLocalLLM initEnter
  simp [hni, he, hw]

/-- Witness for `backoff_cached`: with the failure cached at time 1000 and a
retry at time 3000 (2000 ms later, inside the 5000 ms window), the cached
error comes back and no load is attempted. -/
theorem backoff_cached_witness :
    initializeLocalLLM backoffSt 3000 LoadOutcome.ok false =
      (⟨false, some "load failed"⟩, backoffSt, false) :=
  backoff_cached backoffSt 3000 LoadOutcome.ok false "load failed" rfl rfl (by decide)

/-- C5, counterexample: two `initializeLocalLLM` calls interleaved while
uninitialized.  The first passes the guards and proceeds to load; the second,
arriving while `isInitializing` is set, does NOT receive `{success: true}`
once the load completes — it returns `{success: false, error:
'Initialization already in progress'}` immediately, refuting the claim that
both callers receive `{success: true}`. -/
theorem single_flight_shared_success_cex :
    (initEnter initialLLMState 0).1 = InitEnter.proceed ∧
    (initializeLocalLLM ((initEnter initialLLMState 0).2) 10 LoadOutcome.ok false).1 =
      ⟨false, some inProgressMsg⟩ := by
  constructor <;> rfl

/-- C5, amended: when two `initializeLocalLLM` calls race while uninitialized,
the load executes exactly once — the second caller makes no load attempt and
leaves the state unchanged, receiving an immediate
`{success: false, error: 'Initialization already in progress'}` — and the
first caller receives `{success: true}` once its single load completes. -/
theorem single_flight_once (t0 t1 : Nat) (d1 d2 : Bool) :
    (initEnter initialLLMState t0).1 = InitEnter.proceed ∧
    initializeLocalLLM ((initEnter initialLLMState t0).2) t1 LoadOutcome.ok d1 =
      (⟨false, some inProgressMsg⟩, (initEnter initialLLMState t0).2, false) ∧
    (initFinish ((initEnter initialLLMState t0).2) LoadOutcome.ok d2).1 = ⟨true, none⟩ :=
  ⟨rfl, rfl, rfl⟩

/-- C7: every `generateLocalResponse` call, whatever the outcome of each step
(successful response, generation error, or exception at any point), disposes
exactly the contexts and sessions it created before returning: dispose
counts equal create counts on every path. -/
theorem context_disposal (st : LLMState) (initRes : InitResult) (o : GenOutcome)
    (s c : Bool) :
    ((generateLocalResponse st initRes o s c).2.contextsDisposed =
        (generateLocalResponse st initRes o s c).2.contextsCreated) ∧
    ((generateLocalResponse st initRes o s c).2.sessionsDisposed =
        (generateLocalResponse st initRes o s c).2.sessionsCreated) := by
  unfold generateLocalResponse
  split
  · exact ⟨rfl, rfl⟩
  · exact ⟨rfl, rfl⟩

/-- C8: for an existing model file below the 100 MB floor,
`checkLocalLLMAvailable` returns `{available: false}` with an error message
containing "corrupted" (without loading the model — the function only reads
file metadata); at or above the floor it returns `{available: true}`. -/
theorem corrupted_floor (modelPath : String) (sizeBytes : Nat) :
    (sizeBytes < 100 * 1024 * 1024 →
      checkLocalLLMAvailable modelPath true sizeBytes = ⟨false, some corruptedMsg⟩ ∧
      containsSub corruptedMsg.data "corrupted".data = true) ∧
    (100 * 1024 * 1024 ≤ sizeBytes →
      checkLocalLLMAvailable modelPath true sizeBytes = ⟨true, none⟩) := by
  constructor
  · intro h
    exact ⟨by simp [checkLocalLLMAvailable, h], by decide⟩
  · intro h
    simp [checkLocalLLMAvailable, Nat.not_lt.mpr h]

/-- Witness for `corrupted_floor`: a 50 MB file is reported corrupted, a
200 MB file is available. -/
theorem corrupted_floor_witness :
    checkLocalLLMAvailable "p" true (50 * 1024 * 1024) = ⟨false, some corruptedMsg⟩ ∧
    checkLocalLLMAvailable "p" true (200 * 1024 * 1024) = ⟨true, none⟩ :=
  ⟨((corrupted_floor "p" (50 * 1024 * 1024)).1 (by decide)).1,
    (corrupted_floor "p" (200 * 1024 * 1024)).2 (by decide)⟩

/-- C9: `disposeLocalLLM` is idempotent, total (a throwing `model.dispose()`
is swallowed — the Boolean outcome argument never changes the result), and
from every prior state clears the model handle reference and leaves a state
that `getLocalLLMStatus` reports as `initialized = false`. -/
theorem dispose_uninitialized (st : LLMState) (o o' apple : Bool) :
    disposeLocalLLM (disposeLocalLLM st o) o' = disposeLocalLLM st o ∧
    (disposeLocalLLM st o).model = false ∧
    (getLocalLLMStatus apple (disposeLocalLLM st o)).initialized = false :=
  ⟨rfl, rfl, rfl⟩

/-! ## Claims about the `ai:analyze` router and chunking controller -/

/-- Helper: in the builtin branch, once the availability check and
initialization succeed, the chunking state after the call is determined by
the measured latency alone (the update happens before the generation-error
check, for any prior state and any generation outcome). -/
lemma analyze_state_of_gen (settings : AISettings) (content : String) (ctx : AIContext)
    (st : ChunkState) (env : AnalyzeEnv)
    (hp : settings.provider = Provider.builtin)
    (ha : env.availability.available = true)
    (hi : env.initResult.success = true) :
    (analyze settings content ctx st env).state =
      ⟨decide (env.elapsedMs > RESPONSE_TIME_THRESHOLD), env.elapsedMs⟩ := by
  obtain ⟨p, key⟩ := settings
  cases hp
  rcases hg : env.genResult with e | r
  · by_cases hk : key = "" <;> simp [analyze, ha, hi, hg, hk]
  · simp [analyze, ha, hi, hg]

/-- C1: the cloud fallback (`callMistralAPI`) is invoked if and only if the
configured provider is `builtin`, the availability check and initialization
passed, the primary generation call returned an error, and `mistralApiKey` is
non-empty; for an `ollama` or `mistral` primary, a failing request surfaces
an error directly and no fallback call is made. -/
theorem fallback_scope (settings : AISettings) (content : String) (ctx : AIContext)
    (st : ChunkState) (env : AnalyzeEnv) :
    ((analyze settings content ctx st env).fallbackCalls ≠ [] ↔
      (settings.provider = Provider.builtin ∧ env.availability.available = true ∧
        env.initResult.success = true ∧ (∃ e, env.genResult = Except.error e) ∧
        settings.mistralApiKey ≠ "")) ∧
    ((settings.provider = Provider.ollama ∨ settings.provider = Provider.mistral) →
      env.net = NetOutcome.throw →
      (analyze settings content ctx st env).fallbackCalls = [] ∧
      (analyze settings content ctx st env).result.error = some analyzeFailedMsg) := by
  obtain ⟨p, key⟩ := settings
  cases p
  case builtin =>
    constructor
    · by_cases ha : env.availability.available = true
      · by_cases hi : env.initResult.success = true
        · rcases hg : env.genResult with e | r
          · by_cases hk : key = "" <;> simp [analyze, ha, hi, hg, hk]
          · simp [analyze, ha, hi, hg]
        · simp [analyze, ha, hi]
      · simp [analyze, ha]
    · rintro (h | h) <;> exact absurd h (by simp)
  case ollama =>
    constructor
    · rcases hn : env.net with _ | parsed <;> simp [analyze, hn]
    · intro _ hn
      simp [analyze, hn]
  case mistral =>
    constructor
    · rcases hn : env.net with _ | parsed <;> simp [analyze, hn]
    · intro _ hn
      simp [analyze, hn]

/-- Witness for `fallback_scope`: an ollama request whose fetch throws
surfaces the handler's error and makes no fallback call. -/
theorem fallback_scope_witness :
    (analyze sOllama "c" ctx0 initialChunkState envThrow).fallbackCalls = [] ∧
    (analyze sOllama "c" ctx0 initialChunkState envThrow).result.error =
      some analyzeFailedMsg :=
  (fallback_scope sOllama "c" ctx0 initialChunkState envThrow).2 (Or.inl rfl) rfl

/-- C2: over any sequence of builtin requests that each reach generation and
complete successfully, the chunking flag after the sequence equals
`lastLatency > threshold` for the final completion alone, independent of all
earlier latencies and of the initial state. -/
theorem chunking_last_writer (settings : AISettings) (content : String)
    (ctx : AIContext) (st : ChunkState) (envs : List AnalyzeEnv) (e : AnalyzeEnv)
    (hp : settings.provider = Provider.builtin)
    (ha : e.availability.available = true)
    (hi : e.initResult.success = true)
    (_hok : ∃ r, e.genResult = Except.ok r) :
    (analyzeFold settings content ctx st (envs ++ [e])).useAdaptiveChunking =
      decide (e.elapsedMs > RESPONSE_TIME_THRESHOLD) := by
  unfold analyzeFold
  rw [List.foldl_append]
  simp only [List.foldl_cons, List.foldl_nil]
  rw [analyze_state_of_gen _ _ _ _ _ hp ha hi]

/-- Witness for `chunking_last_writer`: threshold 2000 ms, latency sequence
[2500, 1000] — the flag is true after the first completion and false after
the second. -/
theorem chunking_last_writer_witness :
    (analyzeFold sBuiltin "note" ctx0 initialChunkState [env2500]).useAdaptiveChunking
        = true ∧
    (analyzeFold sBuiltin "note" ctx0 initialChunkState
        [env2500, env1000]).useAdaptiveChunking = false := by
  constructor
  · have h := chunking_last_writer sBuiltin "note" ctx0 initialChunkState [] env2500
      rfl rfl rfl ⟨"r", rfl⟩
    simpa using h
  · have h := chunking_last_writer sBuiltin "note" ctx0 initialChunkState [env2500]
      env1000 rfl rfl rfl ⟨"r", rfl⟩
    simpa using h

/-- C3, counterexample: a builtin request whose generation call returns an
error nonetheless updates the recorded latency and the chunking flag — with
threshold 2000 ms, a failing 2500 ms call flips the flag to true and records
2500, refuting "failures report no timing". -/
theorem latency_recorded_on_failure_cex :
    (analyze sBuiltin "x" ctx0 initialChunkState envGenFail).state ≠ initialChunkState ∧
    (analyze sBuiltin "x" ctx0 initialChunkState envGenFail).state = ⟨true, 2500⟩ := by
  constructor <;> decide

/-- C3, amended: the latency signal and chunking flag are rewritten after
every builtin generation call that returns — successfully or with an error —
while requests that fail before the generation call (availability check or
initialization failure) leave both untouched. -/
theorem latency_update_scope (settings : AISettings) (content : String)
    (ctx : AIContext) (st : ChunkState) (env : AnalyzeEnv)
    (hp : settings.provider = Provider.builtin) :
    (env.availability.available = true → env.initResult.success = true →
      (analyze settings content ctx st env).state =
        ⟨decide (env.elapsedMs > RESPONSE_TIME_THRESHOLD), env.elapsedMs⟩) ∧
    (¬ (env.availability.available = true ∧ env.initResult.success = true) →
      (analyze settings content ctx st env).state = st) := by
  constructor
  · intro ha hi
    exact analyze_state_of_gen _ _ _ _ _ hp ha hi
  · intro h
    obtain ⟨p, key⟩ := settings
    cases hp
    by_cases ha : env.availability.available = true
    · have hi : ¬ env.initResult.success = true := fun hi => h ⟨ha, hi⟩
      simp [analyze, ha, hi]
    · simp [analyze, ha]

/-- Witness for `latency_update_scope`: a failing 2500 ms generation updates
the state; a failed initialization leaves it unchanged. -/
theorem latency_update_scope_witness :
    (analyze sBuiltin "x" ctx0 initialChunkState envGenFail).state = ⟨true, 2500⟩ ∧
    (analyze sBuiltin "x" ctx0 initialChunkState envInitFail).state =
      initialChunkState := by
  constructor
  · have h := (latency_update_scope sBuiltin "x" ctx0 initialChunkState envGenFail
      rfl).1 rfl rfl
    simpa using h
  · exact (latency_update_scope sBuiltin "x" ctx0 initialChunkState envInitFail
      rfl).2 (by simp [envInitFail])

/-- C6, counterexample: when the on-device load (`initializeLocalLLM`) fails
with a cloud key present, the handler returns the load error directly and
makes no fallback call at all — the claimed "exactly one fallback call" does
not happen for a load failure. -/
theorem fallback_load_failure_cex :
    (analyze sBuiltinKey "X" ctx0 initialChunkState envInitFail).fallbackCalls = [] ∧
    (analyze sBuiltinKey "X" ctx0 initialChunkState envInitFail).result =
      ⟨[], some "load failed"⟩ := by
  constructor <;> decide

/-- C6, amended: when the on-device *generation call* fails (after the
availability check and initialization succeeded) and a cloud API key is
present, exactly one fallback call occurs, and it receives the original
untruncated note content (`"Analyze:\n\n" ++ content`, not the chunked or
token-budget-truncated excerpt prepared for the on-device model) together
with the large-model system prompt; load and availability failures surface
their error directly with no fallback. -/
theorem fallback_full_content (settings : AISettings) (content : String)
    (ctx : AIContext) (st : ChunkState) (env : AnalyzeEnv) (e : String)
    (hp : settings.provider = Provider.builtin)
    (ha : env.availability.available = true)
    (hi : env.initResult.success = true)
    (hg : env.genResult = Except.error e)
    (hk : settings.mistralApiKey ≠ "") :
    (analyze settings content ctx st env).fallbackCalls =
      [⟨settings.mistralApiKey, promptsLargeSystem ctx, "Analyze:\n\n" ++ content⟩] := by
  obtain ⟨p, key⟩ := settings
  cases hp
  simp [analyze, ha, hi, hg, hk]

/-- Witness for `fallback_full_content`: a failing builtin generation with key
"k" and chunking active produces exactly one fallback call carrying the full
content "X". -/
theorem fallback_full_content_witness :
    (analyze sBuiltinKey "X" ctx0 ⟨true, 3000⟩ envGenFail).fallbackCalls =
      [⟨"k", promptsLargeSystem ctx0, "Analyze:\n\n" ++ "X"⟩] :=
  fallback_full_content sBuiltinKey "X" ctx0 ⟨true, 3000⟩ envGenFail "gen failed"
    rfl rfl rfl rfl (by decide)

/-! ## Claim about `ensureSuggestions` -/

/-- Helper: appending a non-empty string on the right never yields `""`. -/
lemma append_right_ne_empty (s t : String) (ht : t ≠ "") : s ++ t ≠ "" := by
  intro he
  apply ht
  have hd : s.data ++ t.data = [] := by
    have := congrArg String.data he
    simpa using this
  exact congrArg String.mk (List.append_eq_nil.mp hd).2

/-- Helper: every suggestion template produces a non-empty string, whatever
the item's type and text. -/
lemma suggestionTemplate_ne_empty (ty text : String) : suggestionTemplate ty text ≠ "" := by
  unfold suggestionTemplate meceTemplate gapTemplate sourceTemplate structureTemplate
  split_ifs <;> exact append_right_ne_empty _ _ (by decide)

/-- C10: feedback items returned through `ensureSuggestions` always carry a
non-empty suggestion — items whose suggestion is missing or blank are filled
from the per-type template; a parsed response without a valid feedback array
yields `{feedback: []}`; and an unknown type falls back to the `gap`
template. -/
theorem ensureSuggestions_spec (items : List FBItem) :
    (∀ it ∈ (ensureSuggestions (some items)).feedback,
        ∃ s, it.suggestion = some s ∧ s ≠ "") ∧
    (ensureSuggestions none).feedback = [] ∧
    (∀ ty text : String, ty ≠ "mece" → ty ≠ "gap" → ty ≠ "source" →
        ty ≠ "structure" → suggestionTemplate ty text = gapTemplate text) := by
  refine ⟨?_, rfl, ?_⟩
  · intro it hit
    simp only [ensureSuggestions, List.mem_map] at hit
    obtain ⟨j, _hj, rfl⟩ := hit
    unfold ensureItem
    split
    · exact ⟨suggestionTemplate j.type j.text, rfl, suggestionTemplate_ne_empty _ _⟩
    · rename_i hb
      match hsugg : j.suggestion with
      | none => simp [isBlankSuggestion, hsugg] at hb
      | some s =>
          refine ⟨s, rfl, fun he => ?_⟩
          simp [isBlankSuggestion, hsugg, he] at hb
          exact hb (by decide)
  · intro ty text h1 h2 h3 h4
    simp [suggestionTemplate, h1, h2, h3, h4]

/-- Witness for `ensureSuggestions_spec`: an item of unknown type "weird" with
no suggestion comes back with the non-empty gap-template suggestion, and the
template lookup for "weird" is the gap template. -/
theorem ensureSuggestions_spec_witness :
    (∃ s, (FBItem.mk "weird" "T" (some (gapTemplate "T"))).suggestion =
        some s ∧ s ≠ "") ∧
    suggestionTemplate "weird" "T" = gapTemplate "T" := by
  constructor
  · exact (ensureSuggestions_spec [⟨"weird", "T", none⟩]).1
      ⟨"weird", "T", some (gapTemplate "T")⟩ (by decide)
  · exact (ensureSuggestions_spec []).2.2 "weird" "T"
      (by decide) (by decide) (by decide) (by decide)

end Noschen
